import Mathlib

/-
  Verification development for the nist-time-sync program (src/main.rs).

  The program fetches a daytime-protocol line from a NIST server, parses it
  into a UTC instant, sets the system clock, and loops on a configured
  interval, optionally hosted as a Windows service with stop/interrogate
  control events.

  Modelling conventions:
  * Strings are modelled as `List Char`.  The wire format is ASCII, so the
    byte-indexed slicing of the Rust code (`date[0..2]`) coincides with
    character indexing.
  * `chrono::DateTime<Utc>` is modelled as an `Int`: milliseconds since the
    Unix epoch.  The calendar-to-epoch conversion uses the standard civil
    calendar algorithm, which is the function `NaiveDate::from_ymd_opt` /
    `timestamp()` compute.
  * A Rust panic (index out of bounds, `.unwrap()` on `Err`/`None`) is
    modelled by `Option.none` / a dedicated `panicked` constructor: the
    source functions have no error return of their own.
  * `f64` parsing of the millisecond field is modelled exactly over `ℚ` for
    the plain decimal forms `[sign] (digits [. digits] | . digits)`; the
    exponent/inf/nan forms of Rust's `f64` grammar never occur in the wire
    format and are outside the model.  The `as i64` cast is truncation
    toward zero with saturation, as in Rust.
-/

namespace NistTimeSync

/-- One whitespace-splitting step, accumulating the current word reversed.
Models `str::split_whitespace` (no empty fields, runs of whitespace
collapsed). -/
def splitWSGo : List Char → List Char → List (List Char)
  | [], cur => if cur.isEmpty then [] else [cur.reverse]
  | c :: rest, cur =>
    if c.isWhitespace then
      if cur.isEmpty then splitWSGo rest []
      else cur.reverse :: splitWSGo rest []
    else splitWSGo rest (c :: cur)

/-- `response.split_whitespace().collect::<Vec<_>>()`. -/
def splitWS (s : List Char) : List (List Char) := splitWSGo s []

/-- Rust slice `s[a..b]`: panics (`none`) when `b` exceeds the length. -/
def slice (s : List Char) (a b : Nat) : Option (List Char) :=
  if b ≤ s.length then some ((s.drop a).take (b - a)) else none

/-- Value of a digit string read most-significant first. -/
def digitsVal (l : List Char) : Nat :=
  l.foldl (fun a c => a * 10 + (c.toNat - 48)) 0

/-- Digit-string value; `none` on empty input or any non-digit. -/
def parseNatDigits (l : List Char) : Option Nat :=
  if l.isEmpty then none
  else if l.all Char.isDigit then some (digitsVal l)
  else none

/-- `str::parse::<u32>()`: optional `+`, digits, range check. -/
def parseU32 (s : List Char) : Option Nat :=
  let body := match s with
    | '+' :: rest => rest
    | _ => s
  match parseNatDigits body with
  | some n => if n < 4294967296 then some n else none
  | none => none

/-- `str::parse::<i32>()`: optional sign, digits, range check. -/
def parseI32 (s : List Char) : Option Int :=
  match s with
  | '-' :: rest =>
    match parseNatDigits rest with
    | some n => if n ≤ 2147483648 then some (-(n : Int)) else none
    | none => none
  | '+' :: rest =>
    match parseNatDigits rest with
    | some n => if n ≤ 2147483647 then some ((n : Int)) else none
    | none => none
  | _ =>
    match parseNatDigits s with
    | some n => if n ≤ 2147483647 then some ((n : Int)) else none
    | none => none

/-- Decimal subset of `str::parse::<f64>()`, exact: the unsigned form
`digits [. digits] | . digits` decodes to the pair `(numerator, k)` whose
value is `numerator / 10 ^ k`.  Exponent, `inf` and `nan` forms never occur
in the NIST wire format and are outside the model; the rounding of a
decimal literal to the nearest double does not change the truncated
millisecond value for the magnitudes involved here. -/
def parseDecimalBody (s : List Char) : Option (Nat × Nat) :=
  let ip := s.takeWhile Char.isDigit
  let rest := s.dropWhile Char.isDigit
  match rest with
  | [] => if ip.isEmpty then none else some (digitsVal ip, 0)
  | '.' :: frac =>
    if frac.all Char.isDigit then
      if ip.isEmpty && frac.isEmpty then none
      else some (digitsVal ip * 10 ^ frac.length + digitsVal frac, frac.length)
    else none
  | _ => none

/-- `fields[6].parse::<f64>()` on its decimal subset, with optional sign:
`some (n, k)` decodes the field to the exact value `n / 10 ^ k`. -/
def parseDecimal (s : List Char) : Option (Int × Nat) :=
  match s with
  | '-' :: rest => (parseDecimalBody rest).map (fun p => (-(p.1 : Int), p.2))
  | '+' :: rest => (parseDecimalBody rest).map (fun p => ((p.1 : Int), p.2))
  | _ => (parseDecimalBody s).map (fun p => ((p.1 : Int), p.2))

/-- `f64 as i64` applied to the exact decimal value `num / 10 ^ den10`:
truncation toward zero (`Int.tdiv`), saturating at the `i64` bounds. -/
def f64AsI64 (num : Int) (den10 : Nat) : Int :=
  let t := Int.tdiv num (10 ^ den10)
  if t < -9223372036854775808 then -9223372036854775808
  else if t > 9223372036854775807 then 9223372036854775807
  else t

/-- Gregorian leap-year test. -/
def isLeap (y : Int) : Bool :=
  (y % 4 == 0 && y % 100 != 0) || (y % 400 == 0)

/-- Length of month `m` (1-based) in year `y`. -/
def daysInMonth (y : Int) (m : Nat) : Nat :=
  match m with
  | 1 => 31
  | 2 => if isLeap y then 29 else 28
  | 3 => 31
  | 4 => 30
  | 5 => 31
  | 6 => 30
  | 7 => 31
  | 8 => 31
  | 9 => 30
  | 10 => 31
  | 11 => 30
  | 12 => 31
  | _ => 0

/-- The validity check of `NaiveDate::from_ymd_opt`. -/
def validYmd (y : Int) (m d : Nat) : Bool :=
  1 ≤ m && m ≤ 12 && 1 ≤ d && d ≤ daysInMonth y m

/-- The validity check of `NaiveTime::from_hms_opt`. -/
def validHms (h mi s : Nat) : Bool :=
  h < 24 && mi < 60 && s < 60

/-- Days from the Unix epoch to civil date `(y, m, d)` (the standard civil
calendar algorithm; this is the value underlying `NaiveDate`'s day count). -/
def daysFromCivil (y : Int) (m d : Nat) : Int :=
  let y' := if m ≤ 2 then y - 1 else y
  let era := Int.fdiv y' 400
  let yoe := (y' - era * 400).toNat
  let mp := if 2 < m then m - 3 else m + 9
  let doy := (153 * mp + 2) / 5 + d - 1
  let doe := yoe * 365 + yoe / 4 - yoe / 100 + doy
  era * 146097 + (doe : Int) - 719468

/-- Milliseconds since the Unix epoch of the UTC instant
`y-mo-d h:mi:s.000` (what `Utc.from_utc_datetime(..).timestamp()` scaled to
milliseconds computes). -/
def utcTimestampMillis (y : Int) (mo d h mi s : Nat) : Int :=
  (daysFromCivil y mo d * 86400 + (h : Int) * 3600 + (mi : Int) * 60 + (s : Int)) * 1000

/-- `s[a..b].parse::<i32>()`; `none` is a panic or a parse failure. -/
def sliceParseI32 (s : List Char) (a b : Nat) : Option Int :=
  (slice s a b).bind parseI32

/-- `s[a..b].parse::<u32>()`; `none` is a panic or a parse failure. -/
def sliceParseU32 (s : List Char) (a b : Nat) : Option Nat :=
  (slice s a b).bind parseU32

/-- Body of `parse_nist_response` after `split_whitespace`.  Mirrors the
source order: index fields 1 and 2, parse the six fixed-width integer
slices, index field 6 and parse it as `f64`, then build the date and time
(`from_ymd_opt` / `from_hms_opt`, whose `.unwrap()` panics on an invalid
calendar date or time) and add the millisecond offset.  `none` models a
panic: the Rust function returns `DateTime<Utc>` with no error path. -/
def parseFields (fields : List (List Char)) : Option Int :=
  match fields.get? 1, fields.get? 2 with
  | some date, some time =>
    match sliceParseI32 date 0 2, sliceParseU32 date 3 5, sliceParseU32 date 6 8,
          sliceParseU32 time 0 2, sliceParseU32 time 3 5, sliceParseU32 time 6 8 with
    | some yy, some mo, some d, some h, some mi, some s =>
      match fields.get? 6 with
      | some msF =>
        match parseDecimal msF with
        | some (n, k) =>
          if validYmd (yy + 2000) mo d then
            if validHms h mi s then
              some (utcTimestampMillis (yy + 2000) mo d h mi s + f64AsI64 n k)
            else none
          else none
        | none => none
      | none => none
    | _, _, _, _, _, _ => none
  | _, _ => none

/-- `parse_nist_response`: split on whitespace and decode.  `none` models a
panic (out-of-bounds index or failed `.unwrap()`). -/
def parse_nist_response (response : String) : Option Int :=
  parseFields (splitWS response.data)

/-- `set_system_time` (non-Windows): `settimeofday` returns `osResult` and
sets `errno` to `osErrno`; the code only compares the return value with 0
and never reads `errno`, so every failure maps to the same opaque error
string. -/
def set_system_time (osResult : Int) (osErrno : Nat) : Except String Int :=
  if osResult = 0 then Except.ok osResult
  else Except.error "Error setting system time"

/-- Outcome of `sync_with_nist_server` as seen by its caller.  `panicked`
models a Rust panic escaping the function (there is no `NetworkError` or
`FormatError` value anywhere in the program). -/
inductive SyncResult
  | ok (t : Int)
  | err (msg : String)
  | panicked
deriving DecidableEq, Repr

/-- `sync_with_nist_server`: the network fetch result and the clock-set OS
outcome are the external inputs.  `get_nist_server_time().unwrap()` panics
on a transport error; `parse_nist_response` panics on a malformed reply;
a clock-set failure is mapped to the single permissions message. -/
def sync_with_nist_server (fetch : Except String String) (osResult : Int)
    (osErrno : Nat) : SyncResult :=
  match fetch with
  | Except.error _ => SyncResult.panicked
  | Except.ok str =>
    match parse_nist_response str with
    | none => SyncResult.panicked
    | some t =>
      match set_system_time osResult osErrno with
      | Except.ok _ => SyncResult.ok t
      | Except.error _ =>
        SyncResult.err "Error setting system time, check your permissions."

/-- `interval * 60` computed in `u64` (wrapping in release mode) and then
cast `as i64` (two's-complement reinterpretation). -/
def u64MulSixtyAsI64 (interval : Nat) : Int :=
  let m := (interval * 60) % 18446744073709551616
  if m < 9223372036854775808 then (m : Int) else (m : Int) - 18446744073709551616

/-- `chrono::Duration::minutes((interval * 60) as i64)` in milliseconds:
the increment the Windows service loop adds to the authoritative instant
to obtain the next `sleep_until`. -/
def winNextWakeDelta (interval : Nat) : Int :=
  u64MulSixtyAsI64 interval * 60000

/-- `Duration::from_secs(1)` passed to `shutdown_rx.recv_timeout` — the
longest single blocking wait of the Windows service loop, in
milliseconds. -/
def recvTimeoutMillis : Nat := 1000

/-- Result of `shutdown_rx.recv_timeout(..)` in one loop iteration. -/
inductive RecvOutcome
  | stop
  | disconnected
  | timeout
deriving DecidableEq, Repr

/-- External inputs consumed by one iteration of the Windows service loop:
the value of `Utc::now()` at the guard, the outcome `sync_with_nist_server`
would have, and the channel poll outcome. -/
structure IterInput where
  now : Int
  sync : SyncResult
  recv : RecvOutcome
deriving DecidableEq, Repr

/-- How the Windows service loop ended.  `fuelOut` is a modelling artifact:
the supplied input trace was exhausted before the loop broke. -/
inductive LoopExit
  | normal
  | panicked
  | fuelOut
deriving DecidableEq, Repr

/-- The `loop` of `run_service`, driven by a finite input trace; `su` is
`sleep_until` and the returned `Nat` counts iterations that entered the
Sync phase (`Utc::now() >= sleep_until`).  On `Ok(time)` the next wake is
`time + Duration::minutes((interval * 60) as i64)`; on `Err` the loop
breaks; a stop signal or channel disconnect observed by `recv_timeout`
breaks the loop. -/
def winLoop (interval : Nat) (su : Int) (syncs : Nat) :
    List IterInput → LoopExit × Nat
  | [] => (LoopExit.fuelOut, syncs)
  | inp :: rest =>
    if su ≤ inp.now then
      match inp.sync with
      | SyncResult.panicked => (LoopExit.panicked, syncs + 1)
      | SyncResult.err _ => (LoopExit.normal, syncs + 1)
      | SyncResult.ok t =>
        match inp.recv with
        | RecvOutcome.timeout =>
          winLoop interval (t + winNextWakeDelta interval) (syncs + 1) rest
        | _ => (LoopExit.normal, syncs + 1)
    else
      match inp.recv with
      | RecvOutcome.timeout => winLoop interval su syncs rest
      | _ => (LoopExit.normal, syncs)

/-- External host environment of one `run_service` execution: whether each
host call (`register`, the Running report, the Stopped report) succeeds,
the initial `Utc::now()`, and the loop's input trace. -/
structure HostEnv where
  registerOk : Bool
  setRunningOk : Bool
  setStoppedOk : Bool
  iters : List IterInput
  startNow : Int
deriving DecidableEq, Repr

/-- How a `run_service` execution ended. -/
inductive RunOutcome
  | ok
  | hostErr
  | panic
  | ranOut
deriving DecidableEq, Repr

/-- Observables of one `run_service` execution: its outcome, how many times
`set_service_status(Stopped)` was called, and how many Sync phases ran. -/
structure RunReport where
  outcome : RunOutcome
  stoppedReports : Nat
  syncs : Nat
deriving DecidableEq, Repr

/-- `run_service`: register the control handler (`?` — early return on
failure), report Running (`?` — early return on failure), run the loop
starting from `sleep_until = Utc::now()`, then report Stopped once.  Note
the two early returns skip the Stopped report, and a panic inside the loop
unwinds past it. -/
def run_service (interval : Nat) (env : HostEnv) : RunReport :=
  if env.registerOk = false then ⟨RunOutcome.hostErr, 0, 0⟩
  else if env.setRunningOk = false then ⟨RunOutcome.hostErr, 0, 0⟩
  else
    match winLoop interval env.startNow 0 env.iters with
    | (LoopExit.normal, n) =>
      ⟨if env.setStoppedOk then RunOutcome.ok else RunOutcome.hostErr, 1, n⟩
    | (LoopExit.panicked, n) => ⟨RunOutcome.panic, 0, n⟩
    | (LoopExit.fuelOut, n) => ⟨RunOutcome.ranOut, 0, n⟩

/-- How the non-Windows (foreground) `main` ended. -/
inductive FgOutcome
  | rejectedConfig
  | syncErr (syncs : Nat)
  | panic (syncs : Nat)
  | fuelOut (syncs : Nat)
deriving DecidableEq, Repr

/-- The foreground sync loop: sync, and on success sleep
`Duration::from_secs(interval * 60)` (an uninterruptible wall-clock sleep
anchored at loop-body completion) and repeat; on `Err` print and break. -/
def fgLoop (syncs : Nat) : List SyncResult → FgOutcome
  | [] => FgOutcome.fuelOut syncs
  | r :: rest =>
    match r with
    | SyncResult.ok _ => fgLoop (syncs + 1) rest
    | SyncResult.err _ => FgOutcome.syncErr (syncs + 1)
    | SyncResult.panicked => FgOutcome.panic (syncs + 1)

/-- The non-Windows `main`: `match args.interval { 1.. => loop, _ =>
reject }` — the interval is validated before the loop starts on this entry
path only. -/
def foregroundMain (interval : Nat) (rs : List SyncResult) : FgOutcome :=
  if 1 ≤ interval then fgLoop 0 rs else FgOutcome.rejectedConfig

/-- C1: on a reply with fewer than 7 fields, a non-numeric date or time
component, or an invalid calendar date or time, `parse_nist_response`
panics (`none`): there is no `FormatError` value in the program, so the
claim's "returns a FormatError and never panics" fails on the code. -/
theorem c1_parse_panics_on_malformed :
    parse_nist_response "" = none ∧
    parse_nist_response "52 24-06-01 14:23:05 50 0 0" = none ∧
    parse_nist_response "52 ab-06-01 14:23:05 50 0 0 123.4 UTC(NIST) *" = none ∧
    parse_nist_response "52 24-00-01 14:23:05 50 0 0 123.4 UTC(NIST) *" = none ∧
    parse_nist_response "52 24-06-32 14:23:05 50 0 0 123.4 UTC(NIST) *" = none ∧
    parse_nist_response "52 24-06-01 25:23:05 50 0 0 123.4 UTC(NIST) *" = none := by
  refine ⟨?_, ?_, ?_, ?_, ?_, ?_⟩ <;> decide

/-- C2: after a successful sync at authoritative instant `T` with the
default interval of 60 minutes, the Windows service loop schedules the
next sync at `T + 216000000` ms (60 hours: `Duration::minutes(interval *
60)` is an hours-for-minutes unit slip), not at `T + 3600000` ms
(60 minutes); concretely, the loop does not re-sync at `T` + 60 minutes
but does at `T` + 60 hours. -/
theorem c2_next_wake_unit_bug :
    (∀ T : Int, T + winNextWakeDelta 60 = T + 216000000 ∧
      T + winNextWakeDelta 60 ≠ T + 60 * 60000) ∧
    winLoop 60 0 0 [⟨0, SyncResult.ok 0, RecvOutcome.timeout⟩,
      ⟨3600000, SyncResult.ok 99, RecvOutcome.timeout⟩] = (LoopExit.fuelOut, 1) ∧
    winLoop 60 0 0 [⟨0, SyncResult.ok 0, RecvOutcome.timeout⟩,
      ⟨216000000, SyncResult.ok 99, RecvOutcome.stop⟩] = (LoopExit.normal, 2) := by
  have hdelta : winNextWakeDelta 60 = 216000000 := by decide
  refine ⟨fun T => ⟨by rw [hdelta], by rw [hdelta]; omega⟩, by decide, by decide⟩

/-- C3: a transport error from the network fetch makes
`sync_with_nist_server` panic via `get_nist_server_time().unwrap()`;
it is never routed through a `NetworkError` result (no such value exists
in the program). -/
theorem c3_network_error_panics (e : String) (r : Int) (n : Nat) :
    sync_with_nist_server (Except.error e) r n = SyncResult.panicked := rfl

/-- C4: for a reply line whose field 1 decodes (by fixed-width slicing) to
a valid date `yy-mo-d`, field 2 to a valid time `h:mi:s`, and field 6 to a
decimal millisecond value `q`, `parse_nist_response` returns the UTC
instant of calendar year `2000 + yy`, month `mo`, day `d`, time
`h:mi:s`, plus the truncated millisecond offset. -/
theorem c4_wellformed_parse (rs : String) (dateF timeF msF : List Char)
    (yy : Int) (mo d h mi s : Nat) (n : Int) (k : Nat)
    (h1 : (splitWS rs.data).get? 1 = some dateF)
    (h2 : (splitWS rs.data).get? 2 = some timeF)
    (h6 : (splitWS rs.data).get? 6 = some msF)
    (hy : sliceParseI32 dateF 0 2 = some yy)
    (hmo : sliceParseU32 dateF 3 5 = some mo)
    (hd : sliceParseU32 dateF 6 8 = some d)
    (hh : sliceParseU32 timeF 0 2 = some h)
    (hmi : sliceParseU32 timeF 3 5 = some mi)
    (hs : sliceParseU32 timeF 6 8 = some s)
    (hq : parseDecimal msF = some (n, k))
    (hvd : validYmd (yy + 2000) mo d = true)
    (hvt : validHms h mi s = true) :
    parse_nist_response rs =
      some (utcTimestampMillis (yy + 2000) mo d h mi s + f64AsI64 n k) := by
  simp only [parse_nist_response, parseFields, h1, h2, h6, hy, hmo, hd, hh, hmi, hs,
    hq, hvd, hvt, if_true]

/-- C4 witness: the spec's example reply parses to 2024-06-01T14:23:05.123Z
(epoch milliseconds 1717251785123). -/
theorem c4_wellformed_parse_witness :
    parse_nist_response "52 24-06-01 14:23:05 50 0 0 123.4 UTC(NIST) *" =
      some 1717251785123 := by
  have h := c4_wellformed_parse "52 24-06-01 14:23:05 50 0 0 123.4 UTC(NIST) *"
    "24-06-01".data "14:23:05".data "123.4".data 24 6 1 14 23 5 1234 1
    (by decide) (by decide) (by decide) (by decide) (by decide) (by decide)
    (by decide) (by decide) (by decide) (by decide) (by decide) (by decide)
  rw [h]; decide

/-- C5: correction — the Windows service entry path never validates the
interval: with interval 0 the loop enters the Sync phase (twice in this
two-iteration trace), re-syncing at every poll tick.  Only the non-Windows
foreground path rejects interval 0 before the loop. -/
theorem c5_counterexample :
    (run_service 0 ⟨true, true, true, [⟨0, SyncResult.ok 100, RecvOutcome.timeout⟩,
      ⟨1000, SyncResult.ok 2000, RecvOutcome.stop⟩], 0⟩).syncs = 2 := by decide

/-- C5 amended: the non-Windows foreground entry path rejects interval 0 as
a configuration error before any sync, but the Windows service path does
not validate the interval and enters Sync phases with interval 0. -/
theorem c5_amended :
    (∀ rs, foregroundMain 0 rs = FgOutcome.rejectedConfig) ∧
    (run_service 0 ⟨true, true, true, [⟨0, SyncResult.ok 100, RecvOutcome.timeout⟩,
      ⟨1000, SyncResult.ok 2000, RecvOutcome.disconnected⟩], 0⟩).syncs = 2 := by
  exact ⟨fun rs => rfl, by decide⟩

/-- C6: a stop signal observed while the loop is in its Sleep phase
(`Utc::now() < sleep_until`) ends the loop in that very iteration, and the
single blocking wait per iteration is the 1000 ms `recv_timeout`, so the
loop never waits out the remaining interval after a stop. -/
theorem c6_stop_interrupts_sleep (interval : Nat) (su now : Int) (n : Nat)
    (sync : SyncResult) (rest : List IterInput) (hsleep : now < su) :
    winLoop interval su n (⟨now, sync, RecvOutcome.stop⟩ :: rest) =
      (LoopExit.normal, n) ∧ recvTimeoutMillis = 1000 := by
  refine ⟨?_, rfl⟩
  unfold winLoop
  rw [if_neg (not_le.mpr hsleep)]

/-- C6 witness: with 16 minutes 40 seconds of sleep remaining, a stop
signal ends the loop immediately. -/
theorem c6_stop_interrupts_sleep_witness :
    winLoop 60 1000000 0 [⟨0, SyncResult.ok 5, RecvOutcome.stop⟩] =
      (LoopExit.normal, 0) ∧ recvTimeoutMillis = 1000 :=
  c6_stop_interrupts_sleep 60 1000000 0 0 (SyncResult.ok 5) [] (by decide)

/-- C7: correction — `set_system_time` returns the identical opaque error
for an insufficient-privilege failure (errno 1, EPERM) and for an
unrelated platform failure (errno 22, EINVAL): the code only tests the
`settimeofday` return value and never reads `errno`, and
`sync_with_nist_server` maps both to the same permissions message. -/
theorem c7_counterexample :
    set_system_time (-1) 1 = set_system_time (-1) 22 ∧
    set_system_time (-1) 1 = Except.error "Error setting system time" ∧
    sync_with_nist_server
      (Except.ok "52 24-06-01 14:23:05 50 0 0 123.4 UTC(NIST) *") (-1) 1 =
      SyncResult.err "Error setting system time, check your permissions." ∧
    sync_with_nist_server
      (Except.ok "52 24-06-01 14:23:05 50 0 0 123.4 UTC(NIST) *") (-1) 22 =
      SyncResult.err "Error setting system time, check your permissions." := by
  refine ⟨rfl, rfl, ?_, ?_⟩ <;> decide

/-- C7 amended: every clock-set failure, whatever the OS error cause,
yields the one message "Error setting system time, check your
permissions."; permission failures are not distinguished from other
platform failures. -/
theorem c7_amended (s : String) (t r : Int) (e : Nat)
    (hr : r ≠ 0) (hp : parse_nist_response s = some t) :
    sync_with_nist_server (Except.ok s) r e =
      SyncResult.err "Error setting system time, check your permissions." := by
  simp only [sync_with_nist_server, hp, set_system_time, if_neg hr]

/-- C7 amended witness: errno 13 (EACCES) on a good reply gives the same
permissions message. -/
theorem c7_amended_witness :
    sync_with_nist_server
      (Except.ok "52 24-06-01 14:23:05 50 0 0 123.4 UTC(NIST) *") (-1) 13 =
      SyncResult.err "Error setting system time, check your permissions." :=
  c7_amended "52 24-06-01 14:23:05 50 0 0 123.4 UTC(NIST) *" 1717251785123 (-1) 13
    (by decide) (by decide)

/-- C8: for a well-formed reply whose millisecond field decodes to a
nonnegative decimal `q < 1000`, the parsed instant is the whole-second
timestamp plus `⌊q⌋` milliseconds, and the `f64 as i64` cast the code
applies is exactly that truncation toward zero. -/
theorem c8_millis_truncated (rs : String) (dateF timeF msF : List Char)
    (yy : Int) (mo d h mi s : Nat) (n : Int) (k : Nat)
    (h1 : (splitWS rs.data).get? 1 = some dateF)
    (h2 : (splitWS rs.data).get? 2 = some timeF)
    (h6 : (splitWS rs.data).get? 6 = some msF)
    (hy : sliceParseI32 dateF 0 2 = some yy)
    (hmo : sliceParseU32 dateF 3 5 = some mo)
    (hd : sliceParseU32 dateF 6 8 = some d)
    (hh : sliceParseU32 timeF 0 2 = some h)
    (hmi : sliceParseU32 timeF 3 5 = some mi)
    (hs : sliceParseU32 timeF 6 8 = some s)
    (hq : parseDecimal msF = some (n, k))
    (hvd : validYmd (yy + 2000) mo d = true)
    (hvt : validHms h mi s = true)
    (hq0 : 0 ≤ ((n : ℚ) / (10 : ℚ) ^ k))
    (hq1 : ((n : ℚ) / (10 : ℚ) ^ k) < 1000) :
    parse_nist_response rs =
      some (utcTimestampMillis (yy + 2000) mo d h mi s +
        Int.floor ((n : ℚ) / (10 : ℚ) ^ k)) ∧
    f64AsI64 n k = Int.floor ((n : ℚ) / (10 : ℚ) ^ k) := by
  have hpow : (0 : ℚ) < (10 : ℚ) ^ k := by positivity
  have hn0 : (0 : ℚ) ≤ ((n : Int) : ℚ) := by
    rcases div_nonneg_iff.mp hq0 with ⟨ha, _⟩ | ⟨_, hb⟩
    · exact ha
    · exact absurd hpow (not_lt.mpr hb)
  have hn0' : (0 : Int) ≤ n := by exact_mod_cast hn0
  have hfl : Int.floor ((n : ℚ) / (10 : ℚ) ^ k) = Int.ediv n ((10 : Int) ^ k) := by
    have hc : ((10 : ℚ) ^ k) = (((10 ^ k : Nat)) : ℚ) := by push_cast; ring
    rw [hc, Rat.floor_intCast_div_natCast n (10 ^ k)]
    have hc2 : (((10 ^ k : Nat)) : Int) = (10 : Int) ^ k := by push_cast; ring
    rw [hc2]
    rfl
  have htd : Int.tdiv n ((10 : Int) ^ k) = Int.ediv n ((10 : Int) ^ k) := by
    have := Int.tdiv_eq_ediv hn0' (b := (10 : Int) ^ k) (by positivity)
    simpa using this
  have hfl0 : (0 : Int) ≤ Int.floor ((n : ℚ) / (10 : ℚ) ^ k) :=
    Int.floor_nonneg.mpr hq0
  have hfl1 : Int.floor ((n : ℚ) / (10 : ℚ) ^ k) < 1000 := by
    refine Int.floor_lt.mpr ?_
    exact_mod_cast hq1
  have hcast : f64AsI64 n k = Int.floor ((n : ℚ) / (10 : ℚ) ^ k) := by
    simp only [f64AsI64, htd, ← hfl]
    rw [if_neg (by omega), if_neg (by omega)]
  refine ⟨?_, hcast⟩
  have hparse : parse_nist_response rs =
      some (utcTimestampMillis (yy + 2000) mo d h mi s + f64AsI64 n k) := by
    simp only [parse_nist_response, parseFields, h1, h2, h6, hy, hmo, hd, hh, hmi,
      hs, hq, hvd, hvt, if_true]
  rw [hparse, hcast]

/-- C8 witness: a millisecond field of "123.7" contributes exactly 123 ms:
the example reply parses to epoch milliseconds 1717251785000 + 123. -/
theorem c8_millis_truncated_witness :
    parse_nist_response "52 24-06-01 14:23:05 50 0 0 123.7 UTC(NIST) *" =
      some 1717251785123 := by
  have h := c8_millis_truncated "52 24-06-01 14:23:05 50 0 0 123.7 UTC(NIST) *"
    "24-06-01".data "14:23:05".data "123.7".data 24 6 1 14 23 5 1237 1
    (by decide) (by decide) (by decide) (by decide) (by decide) (by decide)
    (by decide) (by decide) (by decide) (by decide) (by decide) (by decide)
    (by norm_num) (by norm_num)
  have hfl : Int.floor (((1237 : Int) : ℚ) / (10 : ℚ) ^ (1 : Nat)) = 123 := by
    have hc : ((10 : ℚ) ^ (1 : Nat)) = (((10 ^ (1 : Nat) : Nat)) : ℚ) := by push_cast; ring
    rw [hc, Rat.floor_intCast_div_natCast 1237 (10 ^ (1 : Nat))]
    decide
  rw [h.1, hfl]
  decide

/-- C9: correction — if the Running report fails, `run_service` returns
through the `?` early exit without ever reporting Stopped. -/
theorem c9_counterexample :
    (run_service 60 ⟨true, false, true, [], 0⟩).stoppedReports = 0 := by decide

/-- C9 amended: when handler registration and the Running report succeed
and the loop exits normally (stop signal, channel disconnect, or
Sync-phase error), Stopped is reported exactly once before `run_service`
returns; on an earlier lifecycle-report failure it is not reported at
all. -/
theorem c9_amended (interval : Nat) (env : HostEnv)
    (hr : env.registerOk = true) (hrun : env.setRunningOk = true)
    (hloop : (winLoop interval env.startNow 0 env.iters).1 = LoopExit.normal) :
    (run_service interval env).stoppedReports = 1 := by
  have h1 : ¬(env.registerOk = false) := by rw [hr]; simp
  have h2 : ¬(env.setRunningOk = false) := by rw [hrun]; simp
  unfold run_service
  rw [if_neg h1, if_neg h2]
  rcases hw : winLoop interval env.startNow 0 env.iters with ⟨ex, n⟩
  rw [hw] at hloop
  cases ex
  · rfl
  · exact absurd hloop (by simp)
  · exact absurd hloop (by simp)

/-- C9 amended witness: a run where the host accepts registration and the
Running report, the first sync succeeds and a stop arrives, reports
Stopped exactly once (even though the Stopped call itself fails). -/
theorem c9_amended_witness :
    (run_service 60 ⟨true, true, false, [⟨0, SyncResult.ok 0, RecvOutcome.stop⟩],
      0⟩).stoppedReports = 1 :=
  c9_amended 60 ⟨true, true, false, [⟨0, SyncResult.ok 0, RecvOutcome.stop⟩], 0⟩
    rfl rfl (by decide)

/-- C10: the parsed instant depends only on fields 1, 2 and 6 of the
reply: two replies whose whitespace-split token lists agree at indices 1,
2 and 6 parse identically, whatever the other fields hold. -/
theorem c10_depends_only_on_fields_1_2_6 (s s' : String)
    (h1 : (splitWS s.data).get? 1 = (splitWS s'.data).get? 1)
    (h2 : (splitWS s.data).get? 2 = (splitWS s'.data).get? 2)
    (h6 : (splitWS s.data).get? 6 = (splitWS s'.data).get? 6) :
    parse_nist_response s = parse_nist_response s' := by
  simp only [parse_nist_response, parseFields, h1, h2, h6]

/-- C10 witness: two replies differing in fields 0, 3, 4, 5 and in the
trailing fields, but agreeing on fields 1, 2 and 6, parse to the same
instant. -/
theorem c10_depends_only_on_fields_1_2_6_witness :
    parse_nist_response "52 24-06-01 14:23:05 50 0 0 123.4 UTC(NIST) *" =
      parse_nist_response "99 24-06-01 14:23:05 0 9 9 123.4 ABC * extra junk" :=
  c10_depends_only_on_fields_1_2_6
    "52 24-06-01 14:23:05 50 0 0 123.4 UTC(NIST) *"
    "99 24-06-01 14:23:05 0 9 9 123.4 ABC * extra junk"
    (by decide) (by decide) (by decide)

end NistTimeSync
